import Mathlib

/-!
Verification of the GC boundary layer of chrisnas/runtime: the
`ee_alloc_context` randomized-sampling allocation window and the
`GCHeapUtilities` helpers from `src/coreclr/vm/gcheaputilities.h`, and the
arm64 assembly macros `INLINE_THREAD_UNHIJACK` and `PUSH_COOP_PINVOKE_FRAME`
from `src/coreclr/nativeaot/Runtime/arm64/AsmMacros.h`.

Machine addresses and register values are modelled as `Nat`; memory (the
software-write-watch byte table, the stack, the thread structure) is a total
function `Nat → Nat`.
-/

/-- A single store to byte-addressed memory (or to a byte table): the model of
`*p = v` used by every stateful operation below. -/
def writeMem (m : Nat → Nat) (a v : Nat) : Nat → Nat :=
  fun x => if x = a then v else m x

theorem writeMem_eq (m : Nat → Nat) (a v : Nat) : writeMem m a v a = v := by
  simp [writeMem]

theorem writeMem_ne (m : Nat → Nat) (a v x : Nat) (h : x ≠ a) :
    writeMem m a v x = m x := by
  simp [writeMem, h]

/-! ## Allocation context with randomized sampling
(`src/coreclr/vm/gcheaputilities.h`, `_ee_alloc_context`) -/

/-- `const DWORD SamplingDistributionMean = (100 * 1024);` -/
def SamplingDistributionMean : Nat := 100 * 1024

/-- The GC-visible part of the allocation context: the bump-pointer window
bounds `alloc_ptr` and `alloc_limit` used by `_ee_alloc_context`.
(`gc_alloc_context` itself is declared in `gcinterface.h`, outside this
source subset; only the two window-bound fields are used here.) -/
structure gc_alloc_context where
  alloc_ptr : Nat
  alloc_limit : Nat
deriving DecidableEq, Repr

/-- Modelled from the spec: `gc_alloc_context::init` is declared in
`gcinterface.h`, outside this source subset; the spec says "`initialize()`
zeroes the window and limits", so it sets both window bounds to null. -/
def gc_alloc_context.init : gc_alloc_context :=
  { alloc_ptr := 0, alloc_limit := 0 }

/-- The EE-side allocation context: `combined_limit` overlaid on the GC
window. -/
structure ee_alloc_context where
  combined_limit : Nat
  gc_alloc_context : gc_alloc_context
deriving DecidableEq, Repr

/-- `ee_alloc_context::init`: `combined_limit = nullptr;
gc_alloc_context.init();`. -/
def ee_alloc_context.init : ee_alloc_context :=
  { combined_limit := 0, gc_alloc_context := gc_alloc_context.init }

/-- `ee_alloc_context::UpdateCombinedLimit(bool samplingEnabled, CLRRandom*)`.
The random draw happens only on the sampling path, so the sampled threshold
(`ComputeGeometricRandom`'s result, a non-negative byte count) is passed in as
`threshold`. When sampling is off, `combined_limit = alloc_limit`; otherwise
`sampling_limit = alloc_ptr + threshold` and
`combined_limit = Min(sampling_limit, alloc_limit)`. -/
def ee_alloc_context.UpdateCombinedLimit (samplingEnabled : Bool)
    (threshold : Nat) (s : ee_alloc_context) : ee_alloc_context :=
  if !samplingEnabled then
    { s with combined_limit := s.gc_alloc_context.alloc_limit }
  else
    let sampling_limit := s.gc_alloc_context.alloc_ptr + threshold
    { s with
      combined_limit := min sampling_limit s.gc_alloc_context.alloc_limit }

open Classical in
/-- The C cast `(int)` applied to a real-valued double: truncation toward
zero, i.e. floor for non-negative operands and ceiling for negative ones. -/
noncomputable def cIntCast (x : ℝ) : ℤ :=
  if 0 ≤ x then ⌊x⌋ else ⌈x⌉

/-- `ee_alloc_context::ComputeGeometricRandom`: with `probability` the value
returned by `pRandomizer->NextDouble()` (uniform in [0,1)), the threshold is
`(int)(-log(1 - probability) * SamplingDistributionMean)`. The double
arithmetic is idealized over the reals. -/
noncomputable def ComputeGeometricRandom (probability : ℝ) : ℤ :=
  cIntCast (-Real.log (1 - probability) * (SamplingDistributionMean : ℝ))

/-! ## Software write watch (dirty-page tracker)
(`src/coreclr/vm/gcheaputilities.h`, `GCHeapUtilities`) -/

/-- Modelled from the spec: the shift constant
`SOFTWARE_WRITE_WATCH_AddressToTableByteIndexShift` is declared outside this
source subset; the spec says the tracker keeps one byte per fixed-size page,
and 4 KiB pages give a shift of 12. -/
def SOFTWARE_WRITE_WATCH_AddressToTableByteIndexShift : Nat := 12

/-- `GCHeapUtilities::SoftwareWriteWatchSetDirty(void* address, size_t)`:
compute `table_byte_index = address >> shift` and, if the table entry is
currently zero, set it to `0xFF`; otherwise leave the table untouched.
(`write_size` is only used by asserts and does not affect the table.) -/
def SoftwareWriteWatchSetDirty (g_sw_ww_table : Nat → Nat) (address : Nat) :
    Nat → Nat :=
  let table_byte_index :=
    address >>> SOFTWARE_WRITE_WATCH_AddressToTableByteIndexShift
  if g_sw_ww_table table_byte_index = 0 then
    writeMem g_sw_ww_table table_byte_index 0xFF
  else
    g_sw_ww_table

/-- `GCHeapUtilities::SoftwareWriteWatchSetDirtyRegion(void* address, size_t
length)`: `base_index = address >> shift`,
`end_index = (address + length - 1) >> shift`, then
`memset(&table[base_index], ~0, end_index - base_index + 1)`. The memset is
written as a fill of the closed index interval `[base_index, end_index]`; the
`size_t` count is zero exactly when `end_index = base_index - 1` (the only
way `end_index < base_index` can arise), where the interval is empty too. -/
def SoftwareWriteWatchSetDirtyRegion (g_sw_ww_table : Nat → Nat)
    (address length : Nat) : Nat → Nat :=
  let base_index :=
    address >>> SOFTWARE_WRITE_WATCH_AddressToTableByteIndexShift
  let end_index :=
    (address + length - 1) >>> SOFTWARE_WRITE_WATCH_AddressToTableByteIndexShift
  fun j => if base_index ≤ j ∧ j ≤ end_index then 0xFF else g_sw_ww_table j

/-! ## Heap handle registry (`GCHeapUtilities`)
The singleton `g_pGCHeap` is an `Option IGCHeap`: `none` models the null
pointer before initialization. The heap implementation itself is external
(`IGCHeap` is an interface), so it is modelled as a record of abstract
response functions; `WaitUntilGCComplete`'s effect is represented by an
abstract result token. -/

/-- The external heap interface: the two operations this subset calls. -/
structure IGCHeap where
  IsGCInProgressHelper : Bool → Bool
  WaitUntilGCComplete : Bool → Nat

/-- `GCHeapUtilities::IsGCHeapInitialized`: `g_pGCHeap != nullptr`. -/
def IsGCHeapInitialized (g_pGCHeap : Option IGCHeap) : Bool :=
  g_pGCHeap.isSome

/-- `GCHeapUtilities::GetGCHeap`: `assert(g_pGCHeap != nullptr); return
g_pGCHeap;` — the assert becomes the hypothesis. -/
def GetGCHeap (g_pGCHeap : Option IGCHeap)
    (h : IsGCHeapInitialized g_pGCHeap = true) : IGCHeap :=
  g_pGCHeap.get (by simpa [IsGCHeapInitialized] using h)

/-- `GCHeapUtilities::WaitForGCCompletion`: `if (IsGCHeapInitialized())
GetGCHeap()->WaitUntilGCComplete(bConsiderGCStart);`. `some tok` records the
delegated call's result token; `none` means no heap call was made. -/
def WaitForGCCompletion (g_pGCHeap : Option IGCHeap)
    (bConsiderGCStart : Bool) : Option Nat :=
  if h : IsGCHeapInitialized g_pGCHeap = true then
    some ((GetGCHeap g_pGCHeap h).WaitUntilGCComplete bConsiderGCStart)
  else
    none

/-- `GCHeapUtilities::IsGCInProgress`: `IsGCHeapInitialized() ?
GetGCHeap()->IsGCInProgressHelper(bConsiderGCStart) : false`. -/
def IsGCInProgress (g_pGCHeap : Option IGCHeap)
    (bConsiderGCStart : Bool) : Bool :=
  if h : IsGCHeapInitialized g_pGCHeap = true then
    (GetGCHeap g_pGCHeap h).IsGCInProgressHelper bConsiderGCStart
  else
    false

/-! ## arm64 assembly macros
(`src/coreclr/nativeaot/Runtime/arm64/AsmMacros.h`) -/

/-- Modelled from the spec: the offsets of the two hijack-record fields in
the `Thread` structure come from the generated `AsmOffsets.inc`, outside this
source subset. The record holds "the real return address the thread was
about to use, and the stack location that held it"; the two fields are
distinct 8-byte slots. -/
def OFFSETOF__Thread__m_pvHijackedReturnAddress : Nat := 0

/-- Modelled from the spec: second hijack-record field, see
`OFFSETOF__Thread__m_pvHijackedReturnAddress`. -/
def OFFSETOF__Thread__m_ppvHijackedReturnAddressLocation : Nat := 8

/-- `INLINE_THREAD_UNHIJACK $threadReg, $trashReg1, $trashReg2`
(Thread::Unhijack()):
`ldr trashReg1, [threadReg + pvHijackedReturnAddress]`;
`cbz trashReg1, 0f` — if the saved return address is null, skip everything;
otherwise `ldr trashReg2, [threadReg + ppvHijackedReturnAddressLocation]`,
`str trashReg1, [trashReg2]`, then store `xzr` into both record fields.
`mem` is byte-addressed memory holding the Thread structure and the stack;
`threadReg` is the Thread's address. -/
def INLINE_THREAD_UNHIJACK (mem : Nat → Nat) (threadReg : Nat) : Nat → Nat :=
  let trashReg1 := mem (threadReg + OFFSETOF__Thread__m_pvHijackedReturnAddress)
  if trashReg1 = 0 then
    mem
  else
    let trashReg2 :=
      mem (threadReg + OFFSETOF__Thread__m_ppvHijackedReturnAddressLocation)
    let mem1 := writeMem mem trashReg2 trashReg1
    let mem2 :=
      writeMem mem1 (threadReg + OFFSETOF__Thread__m_ppvHijackedReturnAddressLocation) 0
    writeMem mem2 (threadReg + OFFSETOF__Thread__m_pvHijackedReturnAddress) 0

/-- `PTFF_SAVE_X19 equ 0x00000001` -/
def PTFF_SAVE_X19 : Nat := 0x00000001
/-- `PTFF_SAVE_X20 equ 0x00000002` -/
def PTFF_SAVE_X20 : Nat := 0x00000002
/-- `PTFF_SAVE_X21 equ 0x00000004` -/
def PTFF_SAVE_X21 : Nat := 0x00000004
/-- `PTFF_SAVE_X22 equ 0x00000008` -/
def PTFF_SAVE_X22 : Nat := 0x00000008
/-- `PTFF_SAVE_X23 equ 0x00000010` -/
def PTFF_SAVE_X23 : Nat := 0x00000010
/-- `PTFF_SAVE_X24 equ 0x00000020` -/
def PTFF_SAVE_X24 : Nat := 0x00000020
/-- `PTFF_SAVE_X25 equ 0x00000040` -/
def PTFF_SAVE_X25 : Nat := 0x00000040
/-- `PTFF_SAVE_X26 equ 0x00000080` -/
def PTFF_SAVE_X26 : Nat := 0x00000080
/-- `PTFF_SAVE_X27 equ 0x00000100` -/
def PTFF_SAVE_X27 : Nat := 0x00000100
/-- `PTFF_SAVE_X28 equ 0x00000200` -/
def PTFF_SAVE_X28 : Nat := 0x00000200
/-- `PTFF_SAVE_SP equ 0x00000400` -/
def PTFF_SAVE_SP : Nat := 0x00000400
/-- `PTFF_SAVE_ALL_PRESERVED equ 0x000003FF ;; NOTE: x19-x28` -/
def PTFF_SAVE_ALL_PRESERVED : Nat := 0x000003FF

/-- `DEFAULT_FRAME_SAVE_FLAGS equ PTFF_SAVE_ALL_PRESERVED + PTFF_SAVE_SP` -/
def DEFAULT_FRAME_SAVE_FLAGS : Nat := PTFF_SAVE_ALL_PRESERVED + PTFF_SAVE_SP

/-- The arm64 machine state seen by `PUSH_COOP_PINVOKE_FRAME`: the ten
preserved registers x19–x28, the frame pointer, the link register, the stack
pointer, and byte-addressed memory. -/
structure MachineState where
  x19 : Nat
  x20 : Nat
  x21 : Nat
  x22 : Nat
  x23 : Nat
  x24 : Nat
  x25 : Nat
  x26 : Nat
  x27 : Nat
  x28 : Nat
  fp : Nat
  lr : Nat
  sp : Nat
  mem : Nat → Nat

/-- `PUSH_COOP_PINVOKE_FRAME $trashReg`:
`PROLOG_SAVE_REG_PAIR fp, lr, #-0x80!` pre-decrements sp by 0x80 and stores
fp/lr at offsets 0/8 of the new sp; the five further
`PROLOG_SAVE_REG_PAIR` store x19–x28 at offsets 0x20–0x68; the entry sp
value (`add trashReg, sp, #0x80`) is stored at offset 0x70 (slot 15); and
`DEFAULT_FRAME_SAVE_FLAGS` is stored at offset 0x18 (slot 3). The macro
exits with `trashReg = sp`, the transition frame's address, returned as the
second component. -/
def PUSH_COOP_PINVOKE_FRAME (s : MachineState) : MachineState × Nat :=
  let sp1 := s.sp - 0x80
  let m1 := writeMem (writeMem s.mem sp1 s.fp) (sp1 + 0x8) s.lr
  let m2 := writeMem (writeMem m1 (sp1 + 0x20) s.x19) (sp1 + 0x28) s.x20
  let m3 := writeMem (writeMem m2 (sp1 + 0x30) s.x21) (sp1 + 0x38) s.x22
  let m4 := writeMem (writeMem m3 (sp1 + 0x40) s.x23) (sp1 + 0x48) s.x24
  let m5 := writeMem (writeMem m4 (sp1 + 0x50) s.x25) (sp1 + 0x58) s.x26
  let m6 := writeMem (writeMem m5 (sp1 + 0x60) s.x27) (sp1 + 0x68) s.x28
  let trashReg := sp1 + 0x80
  let m7 := writeMem m6 (sp1 + 0x70) trashReg
  let m8 := writeMem m7 (sp1 + 0x18) DEFAULT_FRAME_SAVE_FLAGS
  ({ s with sp := sp1, mem := m8 }, sp1)

/-! ## Theorems -/

/-- C1: For every allocation context and every call to the sampling-limit
recomputation `UpdateCombinedLimit` (whether sampling is enabled or
disabled), after the call `combined_limit ≤ alloc_limit` holds, assuming
`alloc_ptr ≤ alloc_limit` on entry. -/
theorem UpdateCombinedLimit_le_alloc_limit (samplingEnabled : Bool)
    (threshold : Nat) (st : ee_alloc_context)
    (h : st.gc_alloc_context.alloc_ptr ≤ st.gc_alloc_context.alloc_limit) :
    (st.UpdateCombinedLimit samplingEnabled threshold).combined_limit ≤
      (st.UpdateCombinedLimit samplingEnabled threshold).gc_alloc_context.alloc_limit := by
  cases samplingEnabled <;> simp [ee_alloc_context.UpdateCombinedLimit]

/-- Witness for C1 at a concrete context (window 0x1000–0x2000, sampling
enabled, threshold 0x100). -/
theorem UpdateCombinedLimit_le_alloc_limit_witness :
    (ee_alloc_context.mk 0 (gc_alloc_context.mk 0x1000 0x2000)).gc_alloc_context.alloc_ptr ≤
        (ee_alloc_context.mk 0 (gc_alloc_context.mk 0x1000 0x2000)).gc_alloc_context.alloc_limit ∧
      ((ee_alloc_context.mk 0 (gc_alloc_context.mk 0x1000 0x2000)).UpdateCombinedLimit true 0x100).combined_limit ≤
        ((ee_alloc_context.mk 0 (gc_alloc_context.mk 0x1000 0x2000)).UpdateCombinedLimit true 0x100).gc_alloc_context.alloc_limit :=
  ⟨by decide,
    UpdateCombinedLimit_le_alloc_limit true 0x100
      (ee_alloc_context.mk 0 (gc_alloc_context.mk 0x1000 0x2000)) (by decide)⟩

/-- C2: If sampling is disabled, then after `UpdateCombinedLimit` (and after
`init`) `combined_limit == alloc_limit`, regardless of the prior value of
`combined_limit`. -/
theorem UpdateCombinedLimit_disabled_eq_alloc_limit :
    (∀ (threshold : Nat) (st : ee_alloc_context),
        (st.UpdateCombinedLimit false threshold).combined_limit =
          (st.UpdateCombinedLimit false threshold).gc_alloc_context.alloc_limit) ∧
      ee_alloc_context.init.combined_limit =
        ee_alloc_context.init.gc_alloc_context.alloc_limit := by
  constructor
  · intro threshold st
    simp [ee_alloc_context.UpdateCombinedLimit]
  · rfl

/-- C5: `SoftwareWriteWatchSetDirty` is idempotent: for every address,
calling it twice on the same address produces the same dirty-table state as
calling it once. -/
theorem SoftwareWriteWatchSetDirty_idempotent (table : Nat → Nat)
    (address : Nat) :
    SoftwareWriteWatchSetDirty (SoftwareWriteWatchSetDirty table address) address =
      SoftwareWriteWatchSetDirty table address := by
  simp only [SoftwareWriteWatchSetDirty]
  by_cases h :
      table (address >>> SOFTWARE_WRITE_WATCH_AddressToTableByteIndexShift) = 0
  · simp [h, writeMem]
  · simp [h]

/-- C9: `SoftwareWriteWatchSetDirty` writes the table entry for the given
address only when that entry is currently zero: an entry already holding any
nonzero value (not only the conventional 0xFF sentinel) keeps that exact
value, and no table entry other than the one for the address's page is ever
modified. -/
theorem SoftwareWriteWatchSetDirty_frame (table : Nat → Nat) (address : Nat) :
    (SoftwareWriteWatchSetDirty table address
        (address >>> SOFTWARE_WRITE_WATCH_AddressToTableByteIndexShift) =
      if table (address >>> SOFTWARE_WRITE_WATCH_AddressToTableByteIndexShift) = 0
        then 0xFF
        else table (address >>> SOFTWARE_WRITE_WATCH_AddressToTableByteIndexShift)) ∧
      ∀ j, j ≠ address >>> SOFTWARE_WRITE_WATCH_AddressToTableByteIndexShift →
        SoftwareWriteWatchSetDirty table address j = table j := by
  simp only [SoftwareWriteWatchSetDirty]
  constructor
  · by_cases h :
        table (address >>> SOFTWARE_WRITE_WATCH_AddressToTableByteIndexShift) = 0
    · simp [h, writeMem]
    · simp [h]
  · intro j hj
    by_cases h :
        table (address >>> SOFTWARE_WRITE_WATCH_AddressToTableByteIndexShift) = 0
    · simp [h, writeMem, hj]
    · simp [h]

/-- Witness for C9 on a table whose entry for page 0 holds the nonzero,
non-sentinel value 7: marking address 0 keeps the exact value and leaves
entry 1 alone. -/
theorem SoftwareWriteWatchSetDirty_frame_witness :
    (SoftwareWriteWatchSetDirty (fun j => if j = 0 then 7 else 0) 0
        (0 >>> SOFTWARE_WRITE_WATCH_AddressToTableByteIndexShift) =
      if (fun j => if j = 0 then 7 else 0)
            (0 >>> SOFTWARE_WRITE_WATCH_AddressToTableByteIndexShift) = 0
        then 0xFF
        else (fun j => if j = 0 then 7 else 0)
          (0 >>> SOFTWARE_WRITE_WATCH_AddressToTableByteIndexShift)) ∧
      SoftwareWriteWatchSetDirty (fun j => if j = 0 then 7 else 0) 0 1 =
        (fun j => if j = 0 then 7 else 0) 1 :=
  ⟨(SoftwareWriteWatchSetDirty_frame (fun j => if j = 0 then 7 else 0) 0).1,
    (SoftwareWriteWatchSetDirty_frame (fun j => if j = 0 then 7 else 0) 0).2 1
      (by decide)⟩

/-- C8: `WaitForGCCompletion` is a no-op when the heap registry is not yet
initialized, and otherwise delegates to the heap's
wait-until-collection-complete operation. -/
theorem WaitForGCCompletion_spec :
    (∀ b : Bool, WaitForGCCompletion none b = none) ∧
      ∀ (heap : IGCHeap) (b : Bool),
        WaitForGCCompletion (some heap) b =
          some (heap.WaitUntilGCComplete b) := by
  constructor
  · intro b
    rfl
  · intro heap b
    rfl

/-- C10: `IsGCInProgress` returns false whenever the heap registry is not
initialized; with a null `g_pGCHeap` there is no heap to consult. -/
theorem IsGCInProgress_uninitialized (bConsiderGCStart : Bool) :
    IsGCInProgress none bConsiderGCStart = false :=
  rfl

/-- The closed index interval `[addr / m, (addr + len - 1) / m]` used by
`SoftwareWriteWatchSetDirtyRegion` contains exactly the indices `j` whose
page `[j * m, (j + 1) * m)` intersects `[addr, addr + len)`, for `len ≥ 1`. -/
theorem page_range_mem_iff (addr len j m : Nat) (hm : 0 < m)
    (hlen : 1 ≤ len) :
    (addr / m ≤ j ∧ j ≤ (addr + len - 1) / m) ↔
      (j * m < addr + len ∧ addr < (j + 1) * m) := by
  have h1 : addr / m ≤ j ↔ addr < (j + 1) * m := by
    rw [← Nat.lt_succ_iff, Nat.div_lt_iff_lt_mul hm]
  have h2 : j ≤ (addr + len - 1) / m ↔ j * m < addr + len := by
    rw [Nat.le_div_iff_mul_le hm]
    generalize j * m = t
    omega
  rw [h1, h2, and_comm]

/-- Counterexample for C4 as stated. First conjunct: on a table whose entry
for page 1 holds the nonzero, non-sentinel value 1, a `markDirtyRange` call
spanning exactly page 1 (addresses 4096..8191) forces the entry to 0xFF,
while `markDirty` leaves it at 1, so the two final states differ. Second
conjunct: with `len = 0` the marked interval `[addr, addr + len)` is empty,
intersecting no page, yet `markDirtyRange(1, 0)` still sets table entry 0 of
an all-zero table to the sentinel. -/
theorem SoftwareWriteWatchSetDirtyRegion_claim_counterexample :
    SoftwareWriteWatchSetDirtyRegion (fun j => if j = 1 then 1 else 0) 4096 4096 1 ≠
        SoftwareWriteWatchSetDirty (fun j => if j = 1 then 1 else 0) 4096 1 ∧
      SoftwareWriteWatchSetDirtyRegion (fun _ => 0) 1 0 0 = 0xFF := by
  decide

/-- C4 (amended): for every address and every length `len ≥ 1`,
`SoftwareWriteWatchSetDirtyRegion` sets to the dirty sentinel exactly the
page-table entries whose pages intersect `[addr, addr + len)` and modifies
no other entry; and, on a table all of whose entries are 0 or the 0xFF
sentinel, calling it with `len` spanning exactly one page leaves the table
in the same state as one `SoftwareWriteWatchSetDirty` call on that page. -/
theorem SoftwareWriteWatchSetDirtyRegion_spec (table : Nat → Nat)
    (address length : Nat) (hlen : 1 ≤ length) :
    (∀ j, SoftwareWriteWatchSetDirtyRegion table address length j =
        if j * 2 ^ SOFTWARE_WRITE_WATCH_AddressToTableByteIndexShift <
              address + length ∧
            address <
              (j + 1) * 2 ^ SOFTWARE_WRITE_WATCH_AddressToTableByteIndexShift
          then 0xFF else table j) ∧
      (address >>> SOFTWARE_WRITE_WATCH_AddressToTableByteIndexShift =
          (address + length - 1) >>>
            SOFTWARE_WRITE_WATCH_AddressToTableByteIndexShift →
        (∀ j, table j = 0 ∨ table j = 0xFF) →
        ∀ j, SoftwareWriteWatchSetDirtyRegion table address length j =
          SoftwareWriteWatchSetDirty table address j) := by
  have hm : 0 < 2 ^ SOFTWARE_WRITE_WATCH_AddressToTableByteIndexShift :=
    Nat.pos_pow_of_pos _ (by decide)
  constructor
  · intro j
    have hiff := page_range_mem_iff address length j
      (2 ^ SOFTWARE_WRITE_WATCH_AddressToTableByteIndexShift) hm hlen
    simp only [SoftwareWriteWatchSetDirtyRegion, Nat.shiftRight_eq_div_pow]
    by_cases hc :
        address / 2 ^ SOFTWARE_WRITE_WATCH_AddressToTableByteIndexShift ≤ j ∧
          j ≤ (address + length - 1) /
            2 ^ SOFTWARE_WRITE_WATCH_AddressToTableByteIndexShift
    · rw [if_pos hc, if_pos (hiff.mp hc)]
    · rw [if_neg hc, if_neg (fun h => hc (hiff.mpr h))]
  · intro heq hvals j
    simp only [SoftwareWriteWatchSetDirtyRegion, SoftwareWriteWatchSetDirty]
    by_cases hj :
        j = address >>> SOFTWARE_WRITE_WATCH_AddressToTableByteIndexShift
    · subst hj
      rw [if_pos ⟨le_refl _, heq ▸ le_refl _⟩]
      rcases hvals (address >>> SOFTWARE_WRITE_WATCH_AddressToTableByteIndexShift)
        with h0 | hFF
      · rw [if_pos h0, writeMem_eq]
      · rw [if_neg (by rw [hFF]; decide), hFF]
    · rw [if_neg (by
        rw [← heq]
        intro hc
        exact hj (Nat.le_antisymm hc.2 hc.1))]
      by_cases h0 :
          table (address >>> SOFTWARE_WRITE_WATCH_AddressToTableByteIndexShift) = 0
      · rw [if_pos h0, writeMem_ne _ _ _ _ hj]
      · rw [if_neg h0]

/-- Witness for C4 (amended), the spec's end-to-end scenario: marking a range
starting at page 5 and covering exactly pages 5–7 of an all-zero table sets
entries 5, 6, 7 to the dirty sentinel and leaves entries 4 and 8 at zero. -/
theorem SoftwareWriteWatchSetDirtyRegion_spec_witness :
    (1 ≤ 12288) ∧
      SoftwareWriteWatchSetDirtyRegion (fun _ => 0) 20480 12288 5 = 0xFF ∧
      SoftwareWriteWatchSetDirtyRegion (fun _ => 0) 20480 12288 6 = 0xFF ∧
      SoftwareWriteWatchSetDirtyRegion (fun _ => 0) 20480 12288 7 = 0xFF ∧
      SoftwareWriteWatchSetDirtyRegion (fun _ => 0) 20480 12288 4 = 0 ∧
      SoftwareWriteWatchSetDirtyRegion (fun _ => 0) 20480 12288 8 = 0 := by
  refine ⟨by decide, ?_, ?_, ?_, ?_, ?_⟩
  · have h :=
      (SoftwareWriteWatchSetDirtyRegion_spec (fun _ => 0) 20480 12288 (by decide)).1 5
    rw [if_pos (by decide)] at h
    exact h
  · have h :=
      (SoftwareWriteWatchSetDirtyRegion_spec (fun _ => 0) 20480 12288 (by decide)).1 6
    rw [if_pos (by decide)] at h
    exact h
  · have h :=
      (SoftwareWriteWatchSetDirtyRegion_spec (fun _ => 0) 20480 12288 (by decide)).1 7
    rw [if_pos (by decide)] at h
    exact h
  · have h :=
      (SoftwareWriteWatchSetDirtyRegion_spec (fun _ => 0) 20480 12288 (by decide)).1 4
    rw [if_neg (by decide)] at h
    exact h
  · have h :=
      (SoftwareWriteWatchSetDirtyRegion_spec (fun _ => 0) 20480 12288 (by decide)).1 8
    rw [if_neg (by decide)] at h
    exact h

/-- C6: `INLINE_THREAD_UNHIJACK` is a no-op on the thread state and the
stack slot when no hijack record exists (the saved return address is null);
otherwise it writes the saved return address back into the saved slot
location and clears both record fields (saved address and saved slot
location) to zero. The saved slot location is a stack slot distinct from
the two record fields. -/
theorem INLINE_THREAD_UNHIJACK_spec (mem : Nat → Nat) (threadReg : Nat) :
    (mem (threadReg + OFFSETOF__Thread__m_pvHijackedReturnAddress) = 0 →
      INLINE_THREAD_UNHIJACK mem threadReg = mem) ∧
      (mem (threadReg + OFFSETOF__Thread__m_pvHijackedReturnAddress) ≠ 0 →
        mem (threadReg + OFFSETOF__Thread__m_ppvHijackedReturnAddressLocation) ≠
          threadReg + OFFSETOF__Thread__m_pvHijackedReturnAddress →
        mem (threadReg + OFFSETOF__Thread__m_ppvHijackedReturnAddressLocation) ≠
          threadReg + OFFSETOF__Thread__m_ppvHijackedReturnAddressLocation →
        INLINE_THREAD_UNHIJACK mem threadReg
            (mem (threadReg + OFFSETOF__Thread__m_ppvHijackedReturnAddressLocation)) =
          mem (threadReg + OFFSETOF__Thread__m_pvHijackedReturnAddress) ∧
        INLINE_THREAD_UNHIJACK mem threadReg
            (threadReg + OFFSETOF__Thread__m_pvHijackedReturnAddress) = 0 ∧
        INLINE_THREAD_UNHIJACK mem threadReg
            (threadReg + OFFSETOF__Thread__m_ppvHijackedReturnAddressLocation) = 0) := by
  constructor
  · intro h0
    simp only [INLINE_THREAD_UNHIJACK, h0, if_pos]
  · intro hra hloc1 hloc2
    have hfields : threadReg + OFFSETOF__Thread__m_pvHijackedReturnAddress ≠
        threadReg + OFFSETOF__Thread__m_ppvHijackedReturnAddressLocation := by
      simp [OFFSETOF__Thread__m_pvHijackedReturnAddress,
        OFFSETOF__Thread__m_ppvHijackedReturnAddressLocation]
    refine ⟨?_, ?_, ?_⟩
    · simp only [INLINE_THREAD_UNHIJACK, if_neg hra]
      rw [writeMem_ne _ _ _ _ hloc1, writeMem_ne _ _ _ _ hloc2, writeMem_eq]
    · simp only [INLINE_THREAD_UNHIJACK, if_neg hra]
      rw [writeMem_eq]
    · simp only [INLINE_THREAD_UNHIJACK, if_neg hra]
      rw [writeMem_ne _ _ _ _ (Ne.symm hfields), writeMem_eq]

/-- Witness for C6 at a concrete memory: the Thread is at address 100, the
saved return address is 77, the saved slot location is stack address 500. -/
theorem INLINE_THREAD_UNHIJACK_spec_witness :
    ((fun a => if a = 100 then 77 else if a = 108 then 500 else 0)
          (100 + OFFSETOF__Thread__m_pvHijackedReturnAddress) ≠ 0) ∧
      ((fun a => if a = 100 then 77 else if a = 108 then 500 else 0)
          (100 + OFFSETOF__Thread__m_ppvHijackedReturnAddressLocation) ≠
        100 + OFFSETOF__Thread__m_pvHijackedReturnAddress) ∧
      ((fun a => if a = 100 then 77 else if a = 108 then 500 else 0)
          (100 + OFFSETOF__Thread__m_ppvHijackedReturnAddressLocation) ≠
        100 + OFFSETOF__Thread__m_ppvHijackedReturnAddressLocation) ∧
      (INLINE_THREAD_UNHIJACK
            (fun a => if a = 100 then 77 else if a = 108 then 500 else 0) 100
            ((fun a => if a = 100 then 77 else if a = 108 then 500 else 0)
              (100 + OFFSETOF__Thread__m_ppvHijackedReturnAddressLocation)) =
          (fun a => if a = 100 then 77 else if a = 108 then 500 else 0)
            (100 + OFFSETOF__Thread__m_pvHijackedReturnAddress) ∧
        INLINE_THREAD_UNHIJACK
            (fun a => if a = 100 then 77 else if a = 108 then 500 else 0) 100
            (100 + OFFSETOF__Thread__m_pvHijackedReturnAddress) = 0 ∧
        INLINE_THREAD_UNHIJACK
            (fun a => if a = 100 then 77 else if a = 108 then 500 else 0) 100
            (100 + OFFSETOF__Thread__m_ppvHijackedReturnAddressLocation) = 0) :=
  ⟨by decide, by decide, by decide,
    (INLINE_THREAD_UNHIJACK_spec
        (fun a => if a = 100 then 77 else if a = 108 then 500 else 0) 100).2
      (by decide) (by decide) (by decide)⟩

/-- Skipping a store at offset `c` when reading offset `d ≠ c` of the same
frame base. -/
theorem writeMem_offset_ne (m : Nat → Nat) (f c d v : Nat) (h : ¬ d = c) :
    writeMem m (f + c) v (f + d) = m (f + d) := by
  apply writeMem_ne
  omega

/-- The transition frame's address returned by `PUSH_COOP_PINVOKE_FRAME` is
the decremented stack pointer. -/
theorem PUSH_COOP_PINVOKE_FRAME_snd (s : MachineState) :
    (PUSH_COOP_PINVOKE_FRAME s).2 = s.sp - 0x80 :=
  rfl

/-- The memory produced by `PUSH_COOP_PINVOKE_FRAME` as the explicit chain
of fourteen stores performed by the macro. -/
theorem PUSH_COOP_PINVOKE_FRAME_mem (s : MachineState) :
    (PUSH_COOP_PINVOKE_FRAME s).1.mem =
      writeMem (writeMem (writeMem (writeMem (writeMem (writeMem (writeMem
        (writeMem (writeMem (writeMem (writeMem (writeMem (writeMem (writeMem
          s.mem (s.sp - 0x80) s.fp)
          (s.sp - 0x80 + 0x8) s.lr)
          (s.sp - 0x80 + 0x20) s.x19)
          (s.sp - 0x80 + 0x28) s.x20)
          (s.sp - 0x80 + 0x30) s.x21)
          (s.sp - 0x80 + 0x38) s.x22)
          (s.sp - 0x80 + 0x40) s.x23)
          (s.sp - 0x80 + 0x48) s.x24)
          (s.sp - 0x80 + 0x50) s.x25)
          (s.sp - 0x80 + 0x58) s.x26)
          (s.sp - 0x80 + 0x60) s.x27)
          (s.sp - 0x80 + 0x68) s.x28)
          (s.sp - 0x80 + 0x70) (s.sp - 0x80 + 0x80))
          (s.sp - 0x80 + 0x18) DEFAULT_FRAME_SAVE_FLAGS :=
  rfl

/-- C7: `PUSH_COOP_PINVOKE_FRAME` saves the fixed preserved-register set
x19–x28 (at frame offsets 0x20–0x68) and the stack-pointer value as it was
at entry (at offset 0x70) into the frame, and records in the frame's flags
slot (offset 0x18) the bitmask
`DEFAULT_FRAME_SAVE_FLAGS = PTFF_SAVE_ALL_PRESERVED + PTFF_SAVE_SP`, where
`PTFF_SAVE_ALL_PRESERVED` (0x3FF) equals exactly the union of the ten
per-register bits `PTFF_SAVE_X19` through `PTFF_SAVE_X28`. -/
theorem PUSH_COOP_PINVOKE_FRAME_spec (s : MachineState) (h : 0x80 ≤ s.sp) :
    (PUSH_COOP_PINVOKE_FRAME s).2 = s.sp - 0x80 ∧
    (PUSH_COOP_PINVOKE_FRAME s).1.mem ((PUSH_COOP_PINVOKE_FRAME s).2 + 0x20) = s.x19 ∧
    (PUSH_COOP_PINVOKE_FRAME s).1.mem ((PUSH_COOP_PINVOKE_FRAME s).2 + 0x28) = s.x20 ∧
    (PUSH_COOP_PINVOKE_FRAME s).1.mem ((PUSH_COOP_PINVOKE_FRAME s).2 + 0x30) = s.x21 ∧
    (PUSH_COOP_PINVOKE_FRAME s).1.mem ((PUSH_COOP_PINVOKE_FRAME s).2 + 0x38) = s.x22 ∧
    (PUSH_COOP_PINVOKE_FRAME s).1.mem ((PUSH_COOP_PINVOKE_FRAME s).2 + 0x40) = s.x23 ∧
    (PUSH_COOP_PINVOKE_FRAME s).1.mem ((PUSH_COOP_PINVOKE_FRAME s).2 + 0x48) = s.x24 ∧
    (PUSH_COOP_PINVOKE_FRAME s).1.mem ((PUSH_COOP_PINVOKE_FRAME s).2 + 0x50) = s.x25 ∧
    (PUSH_COOP_PINVOKE_FRAME s).1.mem ((PUSH_COOP_PINVOKE_FRAME s).2 + 0x58) = s.x26 ∧
    (PUSH_COOP_PINVOKE_FRAME s).1.mem ((PUSH_COOP_PINVOKE_FRAME s).2 + 0x60) = s.x27 ∧
    (PUSH_COOP_PINVOKE_FRAME s).1.mem ((PUSH_COOP_PINVOKE_FRAME s).2 + 0x68) = s.x28 ∧
    (PUSH_COOP_PINVOKE_FRAME s).1.mem ((PUSH_COOP_PINVOKE_FRAME s).2 + 0x70) = s.sp ∧
    (PUSH_COOP_PINVOKE_FRAME s).1.mem ((PUSH_COOP_PINVOKE_FRAME s).2 + 0x18) =
      DEFAULT_FRAME_SAVE_FLAGS ∧
    DEFAULT_FRAME_SAVE_FLAGS = PTFF_SAVE_ALL_PRESERVED + PTFF_SAVE_SP ∧
    PTFF_SAVE_ALL_PRESERVED = 0x3FF ∧
    PTFF_SAVE_ALL_PRESERVED =
      (PTFF_SAVE_X19 ||| PTFF_SAVE_X20 ||| PTFF_SAVE_X21 ||| PTFF_SAVE_X22 |||
        PTFF_SAVE_X23 ||| PTFF_SAVE_X24 ||| PTFF_SAVE_X25 ||| PTFF_SAVE_X26 |||
        PTFF_SAVE_X27 ||| PTFF_SAVE_X28) := by
  refine ⟨rfl, ?_, ?_, ?_, ?_, ?_, ?_, ?_, ?_, ?_, ?_, ?_, ?_, by decide,
    by decide, by decide⟩ <;>
    simp only [PUSH_COOP_PINVOKE_FRAME_mem, PUSH_COOP_PINVOKE_FRAME_snd] <;>
    simp [writeMem_offset_ne, writeMem_eq] <;>
    omega

/-- A concrete machine state for the C7 witness: x19–x28 hold 19–28, fp=11,
lr=12, sp=0x100, all memory zero. -/
def pushS0 : MachineState :=
  MachineState.mk 19 20 21 22 23 24 25 26 27 28 11 12 0x100 (fun _ => 0)

/-- Witness for C7 at `pushS0`: the x19 slot, the entry-sp slot and the
flags slot of the freshly built frame. -/
theorem PUSH_COOP_PINVOKE_FRAME_spec_witness :
    0x80 ≤ pushS0.sp ∧
      (PUSH_COOP_PINVOKE_FRAME pushS0).1.mem
          ((PUSH_COOP_PINVOKE_FRAME pushS0).2 + 0x20) = pushS0.x19 ∧
      (PUSH_COOP_PINVOKE_FRAME pushS0).1.mem
          ((PUSH_COOP_PINVOKE_FRAME pushS0).2 + 0x70) = pushS0.sp ∧
      (PUSH_COOP_PINVOKE_FRAME pushS0).1.mem
          ((PUSH_COOP_PINVOKE_FRAME pushS0).2 + 0x18) = DEFAULT_FRAME_SAVE_FLAGS :=
  ⟨by decide,
    (PUSH_COOP_PINVOKE_FRAME_spec pushS0 (by decide)).2.1,
    (PUSH_COOP_PINVOKE_FRAME_spec pushS0 (by decide)).2.2.2.2.2.2.2.2.2.2.2.1,
    (PUSH_COOP_PINVOKE_FRAME_spec pushS0 (by decide)).2.2.2.2.2.2.2.2.2.2.2.2.1⟩

/-- C3: when sampling is enabled, the recomputation draws one uniform value
`p` in [0,1), computes `threshold = ⌊-ln(1 - p) * MEAN⌋` with
`MEAN = SamplingDistributionMean = 100 * 1024`, sets the candidate sampling
address to `alloc_ptr + threshold`, and sets
`combined_limit = min(candidate, alloc_limit)`; in particular, if the
candidate exceeds `alloc_limit` then `combined_limit = alloc_limit` (no
sample fires in this window). The double arithmetic of
`ComputeGeometricRandom` is idealized over the reals; the C `(int)` cast
truncates toward zero, which agrees with the floor since the operand is
non-negative on [0,1). -/
theorem ComputeGeometricRandom_spec (p : ℝ) (hp0 : 0 ≤ p) (hp1 : p < 1)
    (st : ee_alloc_context) :
    0 ≤ ComputeGeometricRandom p ∧
    ComputeGeometricRandom p =
      ⌊-Real.log (1 - p) * (SamplingDistributionMean : ℝ)⌋ ∧
    SamplingDistributionMean = 100 * 1024 ∧
    (st.UpdateCombinedLimit true (ComputeGeometricRandom p).toNat).combined_limit =
      min (st.gc_alloc_context.alloc_ptr + (ComputeGeometricRandom p).toNat)
        st.gc_alloc_context.alloc_limit ∧
    (st.gc_alloc_context.alloc_limit <
        st.gc_alloc_context.alloc_ptr + (ComputeGeometricRandom p).toNat →
      (st.UpdateCombinedLimit true (ComputeGeometricRandom p).toNat).combined_limit =
        st.gc_alloc_context.alloc_limit) := by
  have hx : 0 ≤ -Real.log (1 - p) * (SamplingDistributionMean : ℝ) := by
    apply mul_nonneg
    · have hlog : Real.log (1 - p) ≤ 0 :=
        Real.log_nonpos (by linarith) (by linarith)
      linarith
    · positivity
  have hfloor : ComputeGeometricRandom p =
      ⌊-Real.log (1 - p) * (SamplingDistributionMean : ℝ)⌋ := by
    simp only [ComputeGeometricRandom, cIntCast, if_pos hx]
  refine ⟨?_, hfloor, rfl, ?_, ?_⟩
  · rw [hfloor]
    exact Int.floor_nonneg.mpr hx
  · simp [ee_alloc_context.UpdateCombinedLimit]
  · intro hlt
    simp [ee_alloc_context.UpdateCombinedLimit, Nat.min_eq_right hlt.le]

/-- Witness for C3 at the concrete draw `p = 0` and a concrete context
(window 0x1000–0x2000). -/
theorem ComputeGeometricRandom_spec_witness :
    ((0:ℝ) ≤ 0 ∧ (0:ℝ) < 1) ∧
      (0 ≤ ComputeGeometricRandom 0 ∧
        ComputeGeometricRandom 0 =
          ⌊-Real.log (1 - 0) * (SamplingDistributionMean : ℝ)⌋ ∧
        SamplingDistributionMean = 100 * 1024 ∧
        ((ee_alloc_context.mk 0 (gc_alloc_context.mk 0x1000 0x2000)).UpdateCombinedLimit
              true (ComputeGeometricRandom 0).toNat).combined_limit =
          min ((ee_alloc_context.mk 0 (gc_alloc_context.mk 0x1000 0x2000)).gc_alloc_context.alloc_ptr +
              (ComputeGeometricRandom 0).toNat)
            (ee_alloc_context.mk 0 (gc_alloc_context.mk 0x1000 0x2000)).gc_alloc_context.alloc_limit ∧
        ((ee_alloc_context.mk 0 (gc_alloc_context.mk 0x1000 0x2000)).gc_alloc_context.alloc_limit <
            (ee_alloc_context.mk 0 (gc_alloc_context.mk 0x1000 0x2000)).gc_alloc_context.alloc_ptr +
              (ComputeGeometricRandom 0).toNat →
          ((ee_alloc_context.mk 0 (gc_alloc_context.mk 0x1000 0x2000)).UpdateCombinedLimit
                true (ComputeGeometricRandom 0).toNat).combined_limit =
            (ee_alloc_context.mk 0 (gc_alloc_context.mk 0x1000 0x2000)).gc_alloc_context.alloc_limit)) :=
  ⟨⟨le_refl 0, by norm_num⟩,
    ComputeGeometricRandom_spec 0 (le_refl 0) (by norm_num)
      (ee_alloc_context.mk 0 (gc_alloc_context.mk 0x1000 0x2000))⟩
